import Mathlib

/-!
# Gift Idea Saver — verification of the specified behaviour

Shallow embedding of `src/gift_idea_saver_main.py` (the complete entry point;
the root-level copy is the incomplete duplicate).  The in-memory document is a
Python `dict` from recipient name to a list of gift records; we model it as an
insertion-ordered association list.  JSON values are modelled by an inductive
type, the data file by a `FileState` (missing, unparsable, or a parsed JSON
value); `json.dump` followed by `json.load` on the kinds of values the program
writes (string-keyed dicts of lists of string-valued dicts) reproduces the same
value, so `save_data` is modelled as producing the parsed form directly.
Strings use ASCII digit/whitespace classification where Python consults
Unicode categories; the claims only involve ASCII inputs.
-/

/-- A gift record `{"idea": ..., "occasion": ...}`. -/
structure Gift where
  idea : String
  occasion : String
deriving DecidableEq, Repr

/-- The in-memory document: a Python dict recipient-name → list of gifts,
modelled as an insertion-ordered association list. -/
abbrev Document := List (String × List Gift)

/-- JSON values as parsed by `json.load`. -/
inductive JValue where
  | jnull : JValue
  | jbool : Bool → JValue
  | jnum : Int → JValue
  | jstr : String → JValue
  | jarr : List JValue → JValue
  | jobj : List (String × JValue) → JValue

/-- State of the data file on disk: absent, present but not valid JSON,
or valid JSON parsing to the given value. -/
inductive FileState where
  | missing : FileState
  | invalid : FileState
  | parsed : JValue → FileState

/-- `isinstance(v, list)` on a parsed JSON value. -/
def JValue.isArr : JValue → Bool
  | JValue.jarr _ => true
  | _ => false

/-- `load_data`: returns `{}` when the file is missing, unreadable or not
valid JSON, or when the top-level value is not a dict; otherwise keeps the
dict, replacing every value that is not a list by `[]`. -/
def load_data : FileState → List (String × JValue)
  | FileState.missing => []
  | FileState.invalid => []
  | FileState.parsed v =>
    match v with
    | JValue.jobj kvs =>
        kvs.map (fun p => if p.2.isArr then p else (p.1, JValue.jarr []))
    | _ => []

/-- Encoding of one gift record as `json.dump` writes it. -/
def encodeGift (g : Gift) : JValue :=
  JValue.jobj [("idea", JValue.jstr g.idea), ("occasion", JValue.jstr g.occasion)]

/-- Encoding of the whole document as `json.dump` writes it. -/
def encodeDoc (d : Document) : JValue :=
  JValue.jobj (d.map (fun p => (p.1, JValue.jarr (p.2.map encodeGift))))

/-- `save_data`: overwrites the data file with the JSON serialization of the
document.  Reading the written text back parses to the same value. -/
def save_data (d : Document) : FileState :=
  FileState.parsed (encodeDoc d)

/-- Inverse of `encodeGift`, used to compare a loaded raw JSON entry with the
typed document it came from. -/
def decodeGift : JValue → Option Gift
  | JValue.jobj [("idea", JValue.jstr i), ("occasion", JValue.jstr o)] =>
      some { idea := i, occasion := o }
  | _ => none

/-- Decode each element of a gift array, failing if any element fails. -/
def decodeGiftList : List JValue → Option (List Gift)
  | [] => some []
  | v :: vs =>
    match decodeGift v, decodeGiftList vs with
    | some g, some gs => some (g :: gs)
    | _, _ => none

/-- Inverse of the per-recipient list encoding. -/
def decodeGifts : JValue → Option (List Gift)
  | JValue.jarr xs => decodeGiftList xs
  | _ => none

/-- Inverse of `encodeDoc` on the raw dict returned by `load_data`. -/
def decodeDoc : List (String × JValue) → Option Document
  | [] => some []
  | p :: ps =>
    match decodeGifts p.2, decodeDoc ps with
    | some gs, some d => some ((p.1, gs) :: d)
    | _, _ => none

/-- Python `str.strip()`: drop leading and trailing whitespace.  Defined on
the character list so that it evaluates structurally. -/
def py_strip (s : String) : String :=
  ⟨((s.data.dropWhile Char.isWhitespace).reverse.dropWhile Char.isWhitespace).reverse⟩

/-- Python `str.lower()` (ASCII case mapping suffices for the inputs the
program compares, `"cancel"`). -/
def py_lower (s : String) : String :=
  ⟨s.data.map Char.toLower⟩

/-- `get_input`: `input(prompt).strip()`. -/
def get_input (raw : String) : String := py_strip raw

/-- `is_number`: `text.isdigit()` — nonempty and all digits. -/
def is_number (text : String) : Bool :=
  !text.data.isEmpty && text.data.all Char.isDigit

/-- `int(text)` on a digit string. -/
def str_to_nat (text : String) : Nat :=
  text.data.foldl (fun n c => 10 * n + (c.toNat - 48)) 0

/-- Python `str.split()` with no separator: the maximal nonempty runs of
non-whitespace characters, via an accumulator for the current word. -/
def py_words_aux : List Char → List Char → List (List Char)
  | [], cur => if cur.isEmpty then [] else [cur.reverse]
  | c :: cs, cur =>
    if Char.isWhitespace c then
      if cur.isEmpty then py_words_aux cs []
      else cur.reverse :: py_words_aux cs []
    else py_words_aux cs (c :: cur)

/-- Python `text.split()`. -/
def py_words (s : List Char) : List (List Char) := py_words_aux s []

/-- `" ".join(...)` on the split words. -/
def join_space : List (List Char) → List Char
  | [] => []
  | [w] => w
  | w :: ws => w ++ ' ' :: join_space ws

/-- `clean_text`: `" ".join(text.split()).strip()` — collapse whitespace
runs to single spaces and drop leading/trailing whitespace. -/
def clean_text (text : String) : String :=
  py_strip ⟨join_space (py_words text.data)⟩

/-- `name in data` on the document dict. -/
def dict_contains (data : Document) (name : String) : Bool :=
  data.any (fun p => p.1 == name)

/-- `list_recipients`: the keys of the dict, sorted ascending (Python
`list.sort()` on strings: lexicographic by code point, stable). -/
def list_recipients (data : Document) : List String :=
  List.insertionSort (· ≤ ·) (data.map Prod.fst)

/-- `add_recipient_to_data`: if the name is not a key, bind it to `[]`
(at the end, as dict insertion does), save, and return `True`; otherwise
return `False` with the document untouched.  The second component of the
result records the `save_data` calls made. -/
def add_recipient_to_data (data : Document) (name : String) :
    Document × Bool :=
  if dict_contains data name then (data, false)
  else (data ++ [(name, [])], true)

/-- `data[recipient_name].append(gift_obj)`: rebinds the recipient's key to
its old list with the gift appended. Only meaningful when the key exists. -/
def append_gift (data : Document) (recipient_name : String) (g : Gift) :
    Document :=
  data.map (fun p => if p.1 == recipient_name then (p.1, p.2 ++ [g]) else p)

/-- `add_gift_to_recipient`: builds `{"idea": gift_text, "occasion":
occasion_text}`, appends it via `data[recipient_name].append`, and saves.
`none` models the `KeyError` raised when the recipient is absent. -/
def add_gift_to_recipient (data : Document) (recipient_name gift_text occasion_text : String) :
    Option Document :=
  if dict_contains data recipient_name then
    some (append_gift data recipient_name { idea := gift_text, occasion := occasion_text })
  else none

/-- `get_gifts_for_recipient`: `data.get(recipient_name, [])`. -/
def get_gifts_for_recipient (data : Document) (recipient_name : String) :
    List Gift :=
  (data.lookup recipient_name).getD []

/-!
## Menu screens

A screen is a function from the document and the script of console input
lines to `none` (an uncaught exception: `EOFError` on exhausted input, or
`KeyError` from `data[name]`) or `some` of the resulting document, the
unconsumed input lines, and the list of documents passed to `save_data`,
in order.  Every line read goes through `get_input`, i.e. is stripped.
-/

/-- `choose_occasion`: reads the numeric choice (and, for choice 3, the
free-text label) from the input script; returns the occasion string, or
`none` for the `None` cancel result. -/
def choose_occasion : List String → Option (Option String × List String)
  | [] => none
  | raw :: rest =>
    let choice := get_input raw
    if !is_number choice then some (none, rest)
    else
      let c := str_to_nat choice
      if c = 0 then some (none, rest)
      else if c = 1 then some (some "Birthday", rest)
      else if c = 2 then some (some "Christmas", rest)
      else if c = 3 then
        match rest with
        | [] => none
        | raw2 :: rest2 =>
          let other := clean_text (get_input raw2)
          if other = "" then some (none, rest2)
          else some (some ("Other: " ++ other), rest2)
      else some (none, rest)

/-- `add_gift_screen`: gift-idea prompt (`"cancel"` aborts, empty aborts),
occasion sub-flow, confirm prompt (`"2"` cancels, anything else confirms),
then `add_gift_to_recipient` which appends and saves. -/
def add_gift_screen (data : Document) (recipient_name : String) :
    List String → Option (Document × List String × List Document)
  | [] => none
  | gift_raw :: inputs =>
    let g0 := get_input gift_raw
    if py_lower g0 = "cancel" then some (data, inputs, [])
    else
      let gift_text := clean_text g0
      if gift_text = "" then some (data, inputs, [])
      else
        match choose_occasion inputs with
        | none => none
        | some (none, inputs2) => some (data, inputs2, [])
        | some (some occasion, inputs2) =>
          match inputs2 with
          | [] => none
          | c_raw :: inputs3 =>
            if get_input c_raw = "2" then some (data, inputs3, [])
            else
              match add_gift_to_recipient data recipient_name gift_text occasion with
              | none => none
              | some data2 => some (data2, inputs3, [data2])

/-- `add_recipient_screen`: name prompt (`"cancel"` aborts, empty aborts),
confirm prompt (`"2"` cancels, anything else confirms), then
`add_recipient_to_data` (which saves only when the name was new), then the
"add a gift idea now" prompt (`"1"` chains into `add_gift_screen`). -/
def add_recipient_screen (data : Document) :
    List String → Option (Document × List String × List Document)
  | [] => none
  | name_raw :: inputs =>
    let n0 := get_input name_raw
    if py_lower n0 = "cancel" then some (data, inputs, [])
    else
      let name := clean_text n0
      if name = "" then some (data, inputs, [])
      else
        match inputs with
        | [] => none
        | c_raw :: inputs2 =>
          if get_input c_raw = "2" then some (data, inputs2, [])
          else
            let res := add_recipient_to_data data name
            let saves : List Document := if res.2 then [res.1] else []
            match inputs2 with
            | [] => none
            | n_raw :: inputs3 =>
              if get_input n_raw = "1" then
                match add_gift_screen res.1 name inputs3 with
                | none => none
                | some (d2, inputs4, saves2) => some (d2, inputs4, saves ++ saves2)
              else some (res.1, inputs3, saves)

/-!
## Helper lemmas
-/

/-- `name in data` holds exactly when lookup finds some gift list. -/
theorem dict_contains_iff_lookup (data : Document) (k : String) :
    dict_contains data k = true ↔ ∃ gs, data.lookup k = some gs := by
  induction data with
  | nil => simp [dict_contains]
  | cons p t ih =>
    obtain ⟨a, v⟩ := p
    by_cases hak : a = k
    · subst hak
      simp [dict_contains, List.lookup]
    · simp only [dict_contains, List.any_cons] at ih ⊢
      have h1 : (a == k) = false := by simp [hak]
      have h2 : (k == a) = false := by simp [Ne.symm hak]
      simp [List.lookup, h1, h2, ih]

/-- A JSON value on which `isinstance(·, list)` holds is an array. -/
theorem isArr_jarr (v : JValue) (h : v.isArr = true) :
    ∃ xs, v = JValue.jarr xs := by
  cases v <;> simp [JValue.isArr] at h ⊢

/-- Appending a gift rewrites the looked-up list of that recipient. -/
theorem lookup_append_gift (data : Document) (r : String) (g : Gift)
    (gs : List Gift) (h : data.lookup r = some gs) :
    (append_gift data r g).lookup r = some (gs ++ [g]) := by
  induction data with
  | nil => simp at h
  | cons p t ih =>
    obtain ⟨a, v⟩ := p
    rw [List.lookup_cons] at h
    by_cases hra : r = a
    · have hb : (r == a) = true := by simp [hra]
      have hb2 : (a == r) = true := by simp [hra.symm]
      simp only [hb] at h
      have hv : v = gs := by injection h
      subst hv
      have hmap : append_gift ((a, v) :: t) r g = (a, v ++ [g]) :: append_gift t r g := by
        simp [append_gift, hra.symm]
      rw [hmap, List.lookup_cons]
      simp [hb]
    · have hb : (r == a) = false := by simp [hra]
      have hb2 : (a == r) = false := by simp [Ne.symm hra]
      simp only [hb] at h
      have hmap : append_gift ((a, v) :: t) r g = (a, v) :: append_gift t r g := by
        simp [append_gift, Ne.symm hra]
      rw [hmap, List.lookup_cons]
      simp only [hb]
      exact ih h

/-!
## Claims
-/

/-- C1: `add_recipient_to_data` adds the name as a new key bound to `[]`
and returns `True` when the name is not already a key; when it is already
a key it returns `False` and leaves the document — including the existing
entry and its gift list — unchanged. -/
theorem addRecipient_correct (data : Document) (name : String) :
    (dict_contains data name = false →
      add_recipient_to_data data name = (data ++ [(name, [])], true)) ∧
    (dict_contains data name = true →
      add_recipient_to_data data name = (data, false)) := by
  constructor <;> intro h <;> simp [add_recipient_to_data, h]

/-- Witness for C1 at concrete inputs: adding a fresh name and an existing
name to `{"Mom": []}`. -/
theorem addRecipient_correct_witness :
    (dict_contains [("Mom", [])] "Bob" = false ∧
      add_recipient_to_data [("Mom", [])] "Bob" = ([("Mom", []), ("Bob", [])], true)) ∧
    (dict_contains [("Mom", [])] "Mom" = true ∧
      add_recipient_to_data [("Mom", [])] "Mom" = ([("Mom", [])], false)) :=
  ⟨⟨by decide, (addRecipient_correct [("Mom", [])] "Bob").1 (by decide)⟩,
   ⟨by decide, (addRecipient_correct [("Mom", [])] "Mom").2 (by decide)⟩⟩

/-- C3: `load_data` yields the empty mapping on a missing file, on invalid
JSON, and on any parsed top-level value that is not an object (array, bool,
number, string, null alike). -/
theorem load_malformed_empty :
    load_data FileState.missing = [] ∧
    load_data FileState.invalid = [] ∧
    (∀ xs, load_data (FileState.parsed (JValue.jarr xs)) = []) ∧
    (∀ b, load_data (FileState.parsed (JValue.jbool b)) = []) ∧
    (∀ n, load_data (FileState.parsed (JValue.jnum n)) = []) ∧
    (∀ s, load_data (FileState.parsed (JValue.jstr s)) = []) ∧
    load_data (FileState.parsed JValue.jnull) = [] :=
  ⟨rfl, rfl, fun _ => rfl, fun _ => rfl, fun _ => rfl, fun _ => rfl, rfl⟩

/-- C4: every entry of a mapping returned by `load_data` has a JSON-array
value — non-array values on disk are coerced to `[]` at load time. -/
theorem load_values_are_lists (fs : FileState) (p : String × JValue)
    (h : p ∈ load_data fs) : ∃ xs, p.2 = JValue.jarr xs := by
  cases fs with
  | missing => simp [load_data] at h
  | invalid => simp [load_data] at h
  | parsed v =>
    cases v with
    | jobj kvs =>
      simp only [load_data, List.mem_map] at h
      obtain ⟨q, _, hq⟩ := h
      by_cases har : q.2.isArr = true
      · obtain ⟨xs, hxs⟩ := isArr_jarr q.2 har
        refine ⟨xs, ?_⟩
        rw [← hq, if_pos har]
        exact hxs
      · refine ⟨[], ?_⟩
        rw [← hq, if_neg har]
    | jnull => simp [load_data] at h
    | jbool b => simp [load_data] at h
    | jnum n => simp [load_data] at h
    | jstr s => simp [load_data] at h
    | jarr xs => simp [load_data] at h

/-- Witness for C4: loading `{"a": null}` yields the entry `("a", [])`,
whose value is an array. -/
theorem load_values_are_lists_witness :
    ("a", JValue.jarr []) ∈
      load_data (FileState.parsed (JValue.jobj [("a", JValue.jnull)])) ∧
    ∃ xs, (("a", JValue.jarr []) : String × JValue).2 = JValue.jarr xs :=
  ⟨by simp [load_data, JValue.isArr],
   load_values_are_lists (FileState.parsed (JValue.jobj [("a", JValue.jnull)]))
     ("a", JValue.jarr []) (by simp [load_data, JValue.isArr])⟩

/-- C5: `list_recipients` returns exactly the recipient names (a
permutation of the keys), in ascending code-point order; on
`{"Bob": [], "alice": [], "Zed": []}` it returns `["Bob", "Zed", "alice"]`. -/
theorem listRecipients_sorted (data : Document) :
    (list_recipients data).Perm (data.map Prod.fst) ∧
    List.Sorted (· ≤ ·) (list_recipients data) ∧
    list_recipients [("Bob", []), ("alice", []), ("Zed", [])] =
      ["Bob", "Zed", "alice"] := by
  refine ⟨List.perm_insertionSort _ _, List.sorted_insertionSort _ _, ?_⟩
  have h1 : ¬ ("alice" : String) ≤ "Zed" := by
    rw [String.le_iff_toList_le]; decide
  simp [list_recipients, List.insertionSort, List.orderedInsert, h1]
  decide

/-- C7: under the precondition that the recipient exists,
`add_gift_to_recipient` appends the `{idea, occasion}` record without
error (and the gift list grows accordingly); without the precondition it
raises `KeyError` — there is no defensive no-op branch. -/
theorem addGift_precondition (data : Document) (r i o : String) :
    (dict_contains data r = true →
      add_gift_to_recipient data r i o =
        some (append_gift data r { idea := i, occasion := o }) ∧
      get_gifts_for_recipient (append_gift data r { idea := i, occasion := o }) r =
        get_gifts_for_recipient data r ++ [{ idea := i, occasion := o }]) ∧
    (dict_contains data r = false →
      add_gift_to_recipient data r i o = none) := by
  constructor
  · intro h
    refine ⟨by simp [add_gift_to_recipient, h], ?_⟩
    obtain ⟨gs, hgs⟩ := (dict_contains_iff_lookup data r).mp h
    simp [get_gifts_for_recipient, hgs, lookup_append_gift data r _ gs hgs]
  · intro h
    simp [add_gift_to_recipient, h]

/-- Witness for C7: appending to the present recipient `"Mom"` succeeds,
and the same call with the absent recipient `"Bob"` is the `KeyError`. -/
theorem addGift_precondition_witness :
    (dict_contains [("Mom", [])] "Mom" = true ∧
      add_gift_to_recipient [("Mom", [])] "Mom" "Socks" "Birthday" =
        some [("Mom", [{ idea := "Socks", occasion := "Birthday" }])]) ∧
    (dict_contains [("Mom", [])] "Bob" = false ∧
      add_gift_to_recipient [("Mom", [])] "Bob" "Socks" "Birthday" = none) :=
  ⟨⟨by decide,
    ((addGift_precondition [("Mom", [])] "Mom" "Socks" "Birthday").1 (by decide)).1⟩,
   ⟨by decide,
    (addGift_precondition [("Mom", [])] "Bob" "Socks" "Birthday").2 (by decide)⟩⟩

/-- Decoding inverts encoding on one gift record. -/
theorem decodeGift_encodeGift (g : Gift) : decodeGift (encodeGift g) = some g := rfl

/-- Decoding inverts encoding on a recipient's gift list. -/
theorem decodeGifts_encode (gs : List Gift) :
    decodeGifts (JValue.jarr (gs.map encodeGift)) = some gs := by
  induction gs with
  | nil => rfl
  | cons g t ih =>
    simp only [decodeGifts] at ih
    simp [decodeGifts, decodeGiftList, decodeGift_encodeGift, ih]

/-- Loading what `save_data` wrote returns the raw dict unchanged: the
cleanup pass keeps every entry because every saved value is an array. -/
theorem load_save_raw (d : Document) :
    load_data (save_data d) =
      d.map (fun p => (p.1, JValue.jarr (p.2.map encodeGift))) := by
  induction d with
  | nil => rfl
  | cons p t ih =>
    simp only [save_data, load_data, encodeDoc, List.map_cons, List.map_map] at ih ⊢
    simp [JValue.isArr, ih]

/-- C2: `save_data` then `load_data` reproduces the document: the loaded
raw mapping decodes to exactly the original keys with the same ordered gift
records. -/
theorem save_load_roundtrip (d : Document) :
    decodeDoc (load_data (save_data d)) = some d := by
  rw [load_save_raw]
  induction d with
  | nil => rfl
  | cons p t ih =>
    simp [decodeDoc, decodeGifts_encode, ih]

/-- C6: two `add_gift_to_recipient` calls for a present recipient append
their records in insertion order at the end of the existing gift list. -/
theorem gift_append_order (data : Document) (r i1 o1 i2 o2 : String)
    (gs : List Gift) (h : data.lookup r = some gs) :
    ∃ d1 d2,
      add_gift_to_recipient data r i1 o1 = some d1 ∧
      add_gift_to_recipient d1 r i2 o2 = some d2 ∧
      get_gifts_for_recipient d2 r =
        gs ++ [{ idea := i1, occasion := o1 }, { idea := i2, occasion := o2 }] := by
  have hc1 : dict_contains data r = true :=
    (dict_contains_iff_lookup data r).mpr ⟨gs, h⟩
  have h1 : (append_gift data r { idea := i1, occasion := o1 }).lookup r
      = some (gs ++ [{ idea := i1, occasion := o1 }]) :=
    lookup_append_gift data r _ gs h
  have hc2 : dict_contains (append_gift data r { idea := i1, occasion := o1 }) r = true :=
    (dict_contains_iff_lookup _ r).mpr ⟨_, h1⟩
  have h2 : (append_gift (append_gift data r { idea := i1, occasion := o1 }) r
        { idea := i2, occasion := o2 }).lookup r
      = some (gs ++ [{ idea := i1, occasion := o1 }] ++ [{ idea := i2, occasion := o2 }]) :=
    lookup_append_gift _ r _ _ h1
  refine ⟨append_gift data r { idea := i1, occasion := o1 },
    append_gift (append_gift data r { idea := i1, occasion := o1 }) r
      { idea := i2, occasion := o2 }, ?_, ?_, ?_⟩
  · simp [add_gift_to_recipient, hc1]
  · simp [add_gift_to_recipient, hc2]
  · simp [get_gifts_for_recipient, h2]

/-- Witness for C6: adding `"Socks"` then `"Book"` to `"Mom"` starting from
an empty gift list yields them in insertion order. -/
theorem gift_append_order_witness :
    ([("Mom", [])] : Document).lookup "Mom" = some [] ∧
    ∃ d1 d2,
      add_gift_to_recipient [("Mom", [])] "Mom" "Socks" "Birthday" = some d1 ∧
      add_gift_to_recipient d1 "Mom" "Book" "Christmas" = some d2 ∧
      get_gifts_for_recipient d2 "Mom" =
        [{ idea := "Socks", occasion := "Birthday" },
         { idea := "Book", occasion := "Christmas" }] :=
  ⟨by decide, by
    simpa using
      gift_append_order [("Mom", [])] "Mom" "Socks" "Birthday" "Book" "Christmas" []
        (by decide)⟩

/-- C8: `choose_occasion` returns `"Birthday"` on choice 1, `"Christmas"`
on choice 2, `"Other: "` plus the trimmed label on choice 3 with a nonempty
cleaned label (cancel when the cleaned label is empty), and cancels (`None`)
on choice 0, on non-numeric input, and on any other numeric input. -/
theorem choose_occasion_cases (raw other : String) (rest : List String) :
    (is_number (get_input raw) = false →
      choose_occasion (raw :: rest) = some (none, rest)) ∧
    (is_number (get_input raw) = true → str_to_nat (get_input raw) = 0 →
      choose_occasion (raw :: rest) = some (none, rest)) ∧
    (is_number (get_input raw) = true → str_to_nat (get_input raw) = 1 →
      choose_occasion (raw :: rest) = some (some "Birthday", rest)) ∧
    (is_number (get_input raw) = true → str_to_nat (get_input raw) = 2 →
      choose_occasion (raw :: rest) = some (some "Christmas", rest)) ∧
    (is_number (get_input raw) = true → str_to_nat (get_input raw) = 3 →
      clean_text (get_input other) ≠ "" →
      choose_occasion (raw :: other :: rest) =
        some (some ("Other: " ++ clean_text (get_input other)), rest)) ∧
    (is_number (get_input raw) = true → str_to_nat (get_input raw) = 3 →
      clean_text (get_input other) = "" →
      choose_occasion (raw :: other :: rest) = some (none, rest)) ∧
    (is_number (get_input raw) = true → 4 ≤ str_to_nat (get_input raw) →
      choose_occasion (raw :: rest) = some (none, rest)) := by
  refine ⟨?_, ?_, ?_, ?_, ?_, ?_, ?_⟩
  · intro h
    simp [choose_occasion, h]
  · intro h h0
    simp [choose_occasion, h, h0]
  · intro h h1
    simp [choose_occasion, h, h1]
  · intro h h2
    simp [choose_occasion, h, h2]
  · intro h h3 ho
    simp [choose_occasion, h, h3, ho]
  · intro h h3 ho
    simp [choose_occasion, h, h3, ho]
  · intro h h4
    have e0 : str_to_nat (get_input raw) ≠ 0 := by omega
    have e1 : str_to_nat (get_input raw) ≠ 1 := by omega
    have e2 : str_to_nat (get_input raw) ≠ 2 := by omega
    have e3 : str_to_nat (get_input raw) ≠ 3 := by omega
    simp [choose_occasion, h, e0, e1, e2, e3]

/-- Witness for C8 at concrete inputs: choice `"1"` yields Birthday, and
choice `"3"` with label `"  New  Year "` yields the trimmed Other label. -/
theorem choose_occasion_cases_witness :
    (is_number (get_input "1") = true ∧ str_to_nat (get_input "1") = 1 ∧
      choose_occasion ["1"] = some (some "Birthday", [])) ∧
    (is_number (get_input "3") = true ∧ str_to_nat (get_input "3") = 3 ∧
      clean_text (get_input "  New  Year ") ≠ "" ∧
      choose_occasion ["3", "  New  Year "] =
        some (some ("Other: " ++ clean_text (get_input "  New  Year ")), [])) :=
  ⟨⟨by decide, by decide,
    (choose_occasion_cases "1" "" []).2.2.1 (by decide) (by decide)⟩,
   ⟨by decide, by decide, by decide,
    (choose_occasion_cases "3" "  New  Year " []).2.2.2.2.1
      (by decide) (by decide) (by decide)⟩⟩

/-- C9: typing `"cancel"` at the recipient-name prompt, and choosing 0 at
the occasion prompt of the add-gift screen, both return with the in-memory
document unchanged and an empty list of `save_data` calls. -/
theorem cancel_no_save (data : Document) (r name_raw gift_raw : String)
    (rest rest2 : List String)
    (h1 : py_lower (get_input name_raw) = "cancel")
    (h2 : py_lower (get_input gift_raw) ≠ "cancel")
    (h3 : clean_text (get_input gift_raw) ≠ "") :
    add_recipient_screen data (name_raw :: rest) = some (data, rest, []) ∧
    add_gift_screen data r (gift_raw :: "0" :: rest2) = some (data, rest2, []) := by
  constructor
  · simp [add_recipient_screen, h1]
  · have hz : choose_occasion ("0" :: rest2) = some (none, rest2) := rfl
    simp [add_gift_screen, h2, h3, hz]

/-- Witness for C9: `"Cancel"` (any case) aborts add-recipient, and
occasion choice 0 aborts add-gift, both with no save. -/
theorem cancel_no_save_witness :
    py_lower (get_input "Cancel") = "cancel" ∧
    py_lower (get_input "Socks") ≠ "cancel" ∧
    clean_text (get_input "Socks") ≠ "" ∧
    add_recipient_screen [("Mom", [])] ["Cancel"] = some ([("Mom", [])], [], []) ∧
    add_gift_screen [("Mom", [])] "Mom" ["Socks", "0"] = some ([("Mom", [])], [], []) := by
  have h := cancel_no_save [("Mom", [])] "Mom" "Cancel" "Socks" [] []
    (by decide) (by decide) (by decide)
  exact ⟨by decide, by decide, by decide, h.1, h.2⟩

/-- C10: at the confirm prompts of the add-recipient and add-gift screens,
every stripped input other than exactly `"2"` (the empty string included)
confirms — the record is added and saved — and exactly `"2"` cancels with
no change and no save. -/
theorem confirm_default :
    (∀ (data : Document) (name_raw c_raw : String) (rest : List String),
      py_lower (get_input name_raw) ≠ "cancel" →
      clean_text (get_input name_raw) ≠ "" →
      dict_contains data (clean_text (get_input name_raw)) = false →
      get_input c_raw ≠ "2" →
      add_recipient_screen data (name_raw :: c_raw :: "0" :: rest) =
        some (data ++ [(clean_text (get_input name_raw), [])], rest,
              [data ++ [(clean_text (get_input name_raw), [])]])) ∧
    (∀ (data : Document) (name_raw c_raw : String) (rest : List String),
      py_lower (get_input name_raw) ≠ "cancel" →
      clean_text (get_input name_raw) ≠ "" →
      get_input c_raw = "2" →
      add_recipient_screen data (name_raw :: c_raw :: rest) =
        some (data, rest, [])) ∧
    (∀ (data : Document) (r gift_raw c_raw : String) (rest : List String),
      py_lower (get_input gift_raw) ≠ "cancel" →
      clean_text (get_input gift_raw) ≠ "" →
      dict_contains data r = true →
      get_input c_raw ≠ "2" →
      add_gift_screen data r (gift_raw :: "1" :: c_raw :: rest) =
        some (append_gift data r
                { idea := clean_text (get_input gift_raw), occasion := "Birthday" },
              rest,
              [append_gift data r
                { idea := clean_text (get_input gift_raw), occasion := "Birthday" }])) ∧
    (∀ (data : Document) (r gift_raw c_raw : String) (rest : List String),
      py_lower (get_input gift_raw) ≠ "cancel" →
      clean_text (get_input gift_raw) ≠ "" →
      get_input c_raw = "2" →
      add_gift_screen data r (gift_raw :: "1" :: c_raw :: rest) =
        some (data, rest, [])) := by
  have h0 : get_input "0" = "0" := rfl
  refine ⟨?_, ?_, ?_, ?_⟩
  · intro data name_raw c_raw rest h1 h2 h3 h4
    simp [add_recipient_screen, h1, h2, h4, add_recipient_to_data, h3, h0]
  · intro data name_raw c_raw rest h1 h2 h4
    simp [add_recipient_screen, h1, h2, h4]
  · intro data r gift_raw c_raw rest h1 h2 h3 h4
    have hb : choose_occasion ("1" :: c_raw :: rest) = some (some "Birthday", c_raw :: rest) := rfl
    simp [add_gift_screen, h1, h2, h4, hb, add_gift_to_recipient, h3]
  · intro data r gift_raw c_raw rest h1 h2 h4
    have hb : choose_occasion ("1" :: c_raw :: rest) = some (some "Birthday", c_raw :: rest) := rfl
    simp [add_gift_screen, h1, h2, h4, hb]

/-- Witness for C10: the empty confirm input adds recipient `"Mom"` with a
save; the input `" 2 "` (stripped to `"2"`) cancels with no save. -/
theorem confirm_default_witness :
    (py_lower (get_input "Mom") ≠ "cancel" ∧
      clean_text (get_input "Mom") ≠ "" ∧
      dict_contains [] (clean_text (get_input "Mom")) = false ∧
      get_input "" ≠ "2" ∧
      add_recipient_screen [] ["Mom", "", "0"] =
        some ([("Mom", [])], [], [[("Mom", [])]])) ∧
    (get_input " 2 " = "2" ∧
      add_recipient_screen [] ["Mom", " 2 "] = some ([], [], [])) := by
  refine ⟨⟨by decide, by decide, by decide, by decide, ?_⟩, ⟨by decide, ?_⟩⟩
  · exact confirm_default.1 [] "Mom" "" [] (by decide) (by decide) (by decide) (by decide)
  · exact confirm_default.2.1 [] "Mom" " 2 " [] (by decide) (by decide) (by decide)
